import Mathlib

/-!
# Verification of the DE proximity-graph maintainer and spatial index

Shallow embedding of `src/crates/energy/src/graph.rs` (the power-grid
proximity-graph maintainer, built on `petgraph::graph::UnGraph`) and of
`src/crates/index/src/kdtree.rs` (the k-d tree spatial-index backend,
built on `kiddo`), together with theorems settling the specification
claims about them.

Modelling choices:
* Bevy `Entity` is modelled as a `Nat` identifier.
* `f32`/`f64` coordinates and weights are modelled as `ℤ`; the code only
  ever compares distances (`Vec3::distance`, Manhattan distance) against
  thresholds, and `dist ≤ c` is embedded as `dist² ≤ c²` (for the
  non-negative thresholds used by the code), which avoids square roots
  while agreeing with the source comparison.
* `petgraph`'s node arena is a list (`NodeIndex` = list position);
  `remove_node` swaps the last node into the removed slot, invalidating
  the last node's index, exactly as `petgraph` documents.
* Rust panics (out-of-range `graph[i]` indexing) are modelled by
  returning `none` from the maintenance pass.
-/

namespace DE

/-- A 3D position, modelling bevy's `Vec3` (`Transform::translation`). -/
structure Vec3 where
  x : ℤ
  y : ℤ
  z : ℤ
deriving DecidableEq, Repr

/-- Squared Euclidean distance between two positions.  `Vec3::distance a b ≤ c`
(for `c ≥ 0`) is embedded as `dist2 a b ≤ c ^ 2`. -/
def dist2 (a b : Vec3) : ℤ :=
  (a.x - b.x) ^ 2 + (a.y - b.y) ^ 2 + (a.z - b.z) ^ 2

/-- `Vec3::distance a b ≤ d` for a non-negative constant `d`. -/
def distLe (a b : Vec3) (d : ℤ) : Bool :=
  dist2 a b ≤ d ^ 2

/-- `Vec3::distance a b > d` for a non-negative constant `d`. -/
def distGt (a b : Vec3) (d : ℤ) : Bool :=
  d ^ 2 < dist2 a b

/-- The max distance (in meters) between two entities for them to be
considered neighbors in the graph (`MAX_DISTANCE: f32 = 10.0`). -/
def MAX_DISTANCE : ℤ := 10

/-- The max transfer rate between two entities
(`MAX_TRANSFER_RATE: f64 = 1_000_000.0`). -/
def MAX_TRANSFER_RATE : ℤ := 1000000

/-- The max edges per node (`MAX_EDGES: usize = 4`). -/
def MAX_EDGES : Nat := 4

/-- A member of the power grid (`struct Member`): the entity and its
last-seen location. -/
structure Member where
  entity : Nat
  location : Vec3
deriving DecidableEq, Repr

instance : Inhabited Member := ⟨⟨0, ⟨0, 0, 0⟩⟩⟩

/-- The `petgraph::graph::UnGraph<Member, f64>` arena: nodes are addressed
by their list position (`NodeIndex`), edges are stored in insertion order
as `(source, target, weight)`.  `UnGraph` treats edges as undirected but
keeps the endpoint order in which they were added, and it permits parallel
edges. -/
structure PGraph where
  nodes : List Member
  edges : List (Nat × Nat × ℤ)
deriving DecidableEq, Repr

/-- The empty undirected graph (`UnGraph::new_undirected()`). -/
def PGraph.empty : PGraph := ⟨[], []⟩

/-- `graph.add_node(m)`: appends a node; its index is the old node count. -/
def PGraph.addNode (g : PGraph) (m : Member) : PGraph :=
  { g with nodes := g.nodes ++ [m] }

/-- `graph.add_edge(a, b, w)`: appends an edge, never deduplicating
(petgraph allows parallel edges). -/
def PGraph.addEdge (g : PGraph) (e : Nat × Nat × ℤ) : PGraph :=
  { g with edges := g.edges ++ [e] }

/-- `graph.find_edge(a, b)` on an undirected graph: the first stored edge
joining `a` and `b` in either orientation.  Only presence is needed by the
source, so the model returns the matching entry. -/
def PGraph.findEdge (g : PGraph) (a b : Nat) : Option (Nat × Nat × ℤ) :=
  g.edges.find? (fun e => (e.1 == a && e.2.1 == b) || (e.1 == b && e.2.1 == a))

/-- `graph.remove_node(i)`: removes node `i` and all its incident edges,
then moves the node with the last index into slot `i` (adjusting the
endpoints of its edges), exactly as petgraph documents.  Out-of-range
indices are a no-op (petgraph returns `None`).  The relative order of the
surviving edges is irrelevant to every claim below, so the incident-edge
sweep is modelled as a filter. -/
def PGraph.removeNode (g : PGraph) (i : Nat) : PGraph :=
  if i < g.nodes.length then
    let last := g.nodes.length - 1
    let keep := g.edges.filter (fun e => !(e.1 == i) && !(e.2.1 == i))
    let remap := fun j => if j == last then i else j
    { nodes := (g.nodes.set i (g.nodes.getD last default)).dropLast
      edges := keep.map (fun e => (remap e.1, remap e.2.1, e.2.2)) }
  else g

/-- Number of edges incident to node `i` (its degree; no self-loops occur
in any state considered). -/
def PGraph.degree (g : PGraph) (i : Nat) : Nat :=
  (g.edges.filter (fun e => e.1 == i || e.2.1 == i)).length

/-- Number of stored edges joining the unordered pair `{a, b}`. -/
def PGraph.edgesBetween (g : PGraph) (a b : Nat) : Nat :=
  (g.edges.filter
    (fun e => (e.1 == a && e.2.1 == b) || (e.1 == b && e.2.1 == a))).length

/-- The power grid resource (`struct PowerGrid`): the graph plus the map
from entities to their node index.  The map is a `HashMap` in the source;
it is modelled as an association list whose order stands for the (run-
dependent) iteration order of the hash map. -/
structure PowerGrid where
  graph : PGraph
  entity_to_node : List (Nat × Nat)
deriving DecidableEq, Repr

/-- `PowerGrid::default()`. -/
def PowerGrid.empty : PowerGrid := ⟨PGraph.empty, []⟩

/-- Association-list lookup, modelling `HashMap::get`. -/
def lookupA {α : Type} (m : List (Nat × α)) (e : Nat) : Option α :=
  match m with
  | [] => none
  | (k, v) :: rest => if k == e then some v else lookupA rest e

/-- One query row: an entity paired with its `Transform::translation`.
A "world" is the pair of the producer and receiver query results, in
their iteration order. -/
abbrev QueryRow := Nat × Vec3

/-- `producers_query/receivers_query.get_component::<Transform>(e).is_ok()`:
the entity is still alive as far as the two queries can see. -/
def aliveIn (producers receivers : List QueryRow) (e : Nat) : Bool :=
  producers.any (fun r => r.1 == e) || receivers.any (fun r => r.1 == e)

/-- The loop body of `update_edges_helper` (graph.rs lines 213-249):
walks the node indices `idxs` in order, carrying the per-call proposal
counter `edges`, appending to the shared `edges_to_add` / `edges_to_remove`
buffers and breaking once `edges == MAX_EDGES` new edges were proposed. -/
def uehLoop (g : PGraph) (node_one : Nat) (node_location : Vec3)
    (idxs : List Nat) (edges : Nat)
    (edges_to_add : List (Nat × Nat × ℤ))
    (edges_to_remove : List (Nat × Nat)) :
    List (Nat × Nat × ℤ) × List (Nat × Nat) :=
  match idxs with
  | [] => (edges_to_add, edges_to_remove)
  | i :: rest =>
    if node_one == i then
      uehLoop g node_one node_location rest edges edges_to_add edges_to_remove
    else
      let other_location := (g.nodes.getD i default).location
      let inRange := distLe node_location other_location MAX_DISTANCE
      if inRange && (g.findEdge node_one i).isNone
          && !(edges_to_add.contains (node_one, i, MAX_TRANSFER_RATE)) then
        let eta := edges_to_add ++ [(node_one, i, MAX_TRANSFER_RATE)]
        if edges + 1 == MAX_EDGES then (eta, edges_to_remove)
        else uehLoop g node_one node_location rest (edges + 1) eta edges_to_remove
      else
        let etr :=
          if distGt node_location other_location MAX_DISTANCE
              && (g.findEdge node_one i).isSome then
            edges_to_remove ++ [(node_one, i)]
          else edges_to_remove
        uehLoop g node_one node_location rest edges edges_to_add etr

/-- `update_edges_helper` (graph.rs lines 206-250): scans every node index
of the graph for the fixed `node_one`. -/
def update_edges_helper (g : PGraph) (node_one : Nat) (node_location : Vec3)
    (edges_to_add : List (Nat × Nat × ℤ))
    (edges_to_remove : List (Nat × Nat)) :
    List (Nat × Nat × ℤ) × List (Nat × Nat) :=
  uehLoop g node_one node_location (List.range g.nodes.length) 0
    edges_to_add edges_to_remove

/-- `update_nodes_helper` (graph.rs lines 194-204): removes each collected
node index in turn via `Graph::remove_node`. -/
def update_nodes_helper (g : PGraph) (nodes_to_remove : List Nat) : PGraph :=
  nodes_to_remove.foldl PGraph.removeNode g

/-- The new/updated-entity scan of `update_power_grid` over one query
(graph.rs lines 285-299 for receivers, 301-315 for producers): for a known
entity, record its node index and new translation in `updated_transforms`
when the stored location differs (reading `graph[*node_index]`, which
panics — modelled as `none` — if the map holds a stale out-of-range
index); for an unknown entity, add a node and a map entry. -/
def scanQuery (g : PGraph) (map : List (Nat × Nat))
    (updated : List (Nat × Vec3)) (rows : List QueryRow) :
    Option (PGraph × List (Nat × Nat) × List (Nat × Vec3)) :=
  match rows with
  | [] => some (g, map, updated)
  | (e, pos) :: rest =>
    match lookupA map e with
    | some i =>
      match g.nodes[i]? with
      | none => none
      | some m =>
        let updated' := if m.location ≠ pos then updated ++ [(i, pos)] else updated
        scanQuery g map updated' rest
    | none =>
      let g' := g.addNode ⟨e, pos⟩
      scanQuery g' (map ++ [(e, g.nodes.length)]) updated rest

/-- `for (node, transform) in updated_transforms { graph[node].location = transform }`
(graph.rs lines 317-319).  Every recorded index was in range when pushed
and the graph does not shrink afterwards, so `List.set` is exact. -/
def applyTransforms (g : PGraph) (updated : List (Nat × Vec3)) : PGraph :=
  updated.foldl
    (fun g p =>
      { g with nodes := g.nodes.set p.1 ⟨(g.nodes.getD p.1 default).entity, p.2⟩ })
    g

/-- The edge-assembly loop of `update_power_grid` (graph.rs lines 327-335):
runs `update_edges_helper` for every node index against the same
(unmodified) graph, threading the shared buffers. -/
def collectEdges (g : PGraph) :
    List (Nat × Nat × ℤ) × List (Nat × Nat) :=
  (List.range g.nodes.length).foldl
    (fun acc node_one =>
      update_edges_helper g node_one
        ((g.nodes.getD node_one default).location) acc.1 acc.2)
    ([], [])

/-- `update_power_grid` (graph.rs lines 252-350), one maintenance pass over
the given producer/receiver query results:
1. retain only alive entities in `entity_to_node`, collecting the node
   indices of despawned entities in the map's iteration order;
2. remove those nodes (`update_nodes_helper`);
3. scan receivers then producers, adding nodes for unknown entities and
   collecting `updated_transforms`;
4. write the updated translations back;
5. collect edge proposals with `update_edges_helper` and append them via
   `add_edge`.  The collected `edges_to_remove` buffer is dropped, exactly
   as in the source, which never reads it back.
`none` models a Rust panic from indexing `graph[i]` out of range. -/
def update_power_grid (producers receivers : List QueryRow)
    (pg : PowerGrid) : Option PowerGrid :=
  let nodes_to_remove :=
    (pg.entity_to_node.filter
      (fun kv => !aliveIn producers receivers kv.1)).map (fun kv => kv.2)
  let map1 := pg.entity_to_node.filter (fun kv => aliveIn producers receivers kv.1)
  let g1 := update_nodes_helper pg.graph nodes_to_remove
  match scanQuery g1 map1 [] receivers with
  | none => none
  | some (g2, map2, updated2) =>
    match scanQuery g2 map2 updated2 producers with
    | none => none
    | some (g3, map3, updated3) =>
      let g4 := applyTransforms g3 updated3
      let eta := (collectEdges g4).1
      some { graph := eta.foldl PGraph.addEdge g4, entity_to_node := map3 }

/-! ## The k-d tree spatial-index backend (`src/crates/index/src/kdtree.rs`) -/

/-- A flat 2D point (`[f32; 2]`, the projection of a translation). -/
abbrev KdPoint := ℤ × ℤ

/-- `kiddo::float::distance::Manhattan` on 2D points. -/
def manhattanDist (a b : KdPoint) : ℤ :=
  |a.1 - b.1| + |a.2 - b.2|

/-- The spec's documented Euclidean inclusion test, `dist(p, q) ≤ r`
embedded as `dist² ≤ r²` (equivalent for `r ≥ 0`). -/
def euclidWithin (a b : KdPoint) (r : ℤ) : Bool :=
  (a.1 - b.1) ^ 2 + (a.2 - b.2) ^ 2 ≤ r ^ 2

/-- The `EntityKdTree` resource: the kiddo tree (modelled as its content,
a list of point/entity-bits pairs) plus `entity_to_last_loc`. -/
structure EntityKdTree where
  tree : List (KdPoint × Nat)
  entity_to_last_loc : List (Nat × KdPoint)
deriving DecidableEq, Repr

/-- `EntityKdTree::radius` (kdtree.rs lines 44-55): kiddo's
`within::<Manhattan>` returns every stored item whose Manhattan distance
to `point` is within `radius`, as `(distance, entity)` pairs.  kiddo
additionally sorts the result by ascending distance; the order is
irrelevant to the membership claims below and is left as tree order. -/
def EntityKdTree.radius (t : EntityKdTree) (point : KdPoint) (radius : ℤ) :
    List (ℤ × Nat) :=
  (t.tree.filter (fun pe => manhattanDist point pe.1 ≤ radius)).map
    (fun pe => (manhattanDist point pe.1, pe.2))

/-- One iteration of the `insert` system loop (kdtree.rs lines 72-79): an
entity not yet in `entity_to_last_loc` is recorded there, added to the
tree, and tagged with the `TrackedByKdTree` marker; an already-tracked
entity is skipped with no effect and no signal of any kind. -/
def kd_insert_step (s : EntityKdTree) (e : Nat) (pos : KdPoint) : EntityKdTree :=
  if (lookupA s.entity_to_last_loc e).isNone then
    { tree := s.tree ++ [(pos, e)]
      entity_to_last_loc := s.entity_to_last_loc ++ [(e, pos)] }
  else s

/-- The `insert` system (kdtree.rs lines 61-80): folds `kd_insert_step`
over the query rows of untracked-marker entities. -/
def kd_insert (s : EntityKdTree) (rows : List (Nat × KdPoint)) : EntityKdTree :=
  rows.foldl (fun s r => kd_insert_step s r.1 r.2) s

/-- The façade's failure taxonomy (spec §7). -/
inductive IndexError where
  | AlreadyTracked
  | NotTracked
deriving DecidableEq, Repr

instance {α β : Type} [DecidableEq α] [DecidableEq β] :
    DecidableEq (Except α β) := fun a b =>
  match a, b with
  | .error x, .error y =>
    if h : x = y then .isTrue (by rw [h])
    else .isFalse (fun c => h (by injection c))
  | .ok x, .ok y =>
    if h : x = y then .isTrue (by rw [h])
    else .isFalse (fun c => h (by injection c))
  | .error _, .ok _ => .isFalse (fun c => Except.noConfusion c)
  | .ok _, .error _ => .isFalse (fun c => Except.noConfusion c)

/-- Modelled from the spec: the Spatial Index Façade's
`insert(entity, position)` operation, which "fails if entity already
tracked" with an `AlreadyTracked` condition — an operation the kdtree
backend under `src/` does not implement. -/
def insert_spec (s : EntityKdTree) (e : Nat) (pos : KdPoint) :
    Except IndexError EntityKdTree :=
  if (lookupA s.entity_to_last_loc e).isSome then
    Except.error IndexError.AlreadyTracked
  else
    Except.ok
      { tree := s.tree ++ [(pos, e)]
        entity_to_last_loc := s.entity_to_last_loc ++ [(e, pos)] }

/-! ## Concrete scenarios used to settle the claims -/

/-- Two receivers 5 apart (well within `MAX_DISTANCE`). -/
def rowsPair : List QueryRow := [(0, ⟨0, 0, 0⟩), (1, ⟨5, 0, 0⟩)]

/-- The same two receivers after entity 1 moved to distance 50
(well beyond `MAX_DISTANCE`). -/
def rowsPairMoved : List QueryRow := [(0, ⟨0, 0, 0⟩), (1, ⟨50, 0, 0⟩)]

/-- Four receivers in a row, mutually within `MAX_DISTANCE`. -/
def rowsFour : List QueryRow :=
  [(0, ⟨0, 0, 0⟩), (1, ⟨1, 0, 0⟩), (2, ⟨2, 0, 0⟩), (3, ⟨3, 0, 0⟩)]

/-- Six receivers in a row, mutually within `MAX_DISTANCE`. -/
def rowsSix : List QueryRow :=
  [(0, ⟨0, 0, 0⟩), (1, ⟨1, 0, 0⟩), (2, ⟨2, 0, 0⟩),
   (3, ⟨3, 0, 0⟩), (4, ⟨4, 0, 0⟩), (5, ⟨5, 0, 0⟩)]

/-- A tight cluster: entity 0 with neighbors at distance 1 on each axis.
After one pass every node has degree exactly `MAX_EDGES = 4` and every
edge of node 0 has length at most 2. -/
def rowsCluster : List QueryRow :=
  [(0, ⟨0, 0, 0⟩), (1, ⟨1, 0, 0⟩), (2, ⟨0, 1, 0⟩)]

/-- The cluster plus a newcomer, entity 3, at distance 9 from entity 0 —
in range, but farther than every existing edge of the saturated node 0. -/
def rowsClusterPlus : List QueryRow := rowsCluster ++ [(3, ⟨0, 9, 0⟩)]

/-- Two receivers 100 apart (never connected by an edge). -/
def rowsFar : List QueryRow := [(0, ⟨0, 0, 0⟩), (1, ⟨100, 0, 0⟩)]

/-- A reachable grid state holding the two far-apart entities of
`rowsFar` (the result of one pass from the empty grid), with the
entity map held in insertion order. -/
def pgFar : PowerGrid :=
  ⟨⟨[⟨0, ⟨0, 0, 0⟩⟩, ⟨1, ⟨100, 0, 0⟩⟩], []⟩, [(0, 0), (1, 1)]⟩

/-- The same grid state with the entity map held in the opposite order —
the same `HashMap` contents under a different iteration order. -/
def pgFarSwapped : PowerGrid :=
  ⟨⟨[⟨0, ⟨0, 0, 0⟩⟩, ⟨1, ⟨100, 0, 0⟩⟩], []⟩, [(1, 1), (0, 0)]⟩

/-- Two far-apart receivers with fresh entity ids, for the map-consistency
scenario. -/
def rowsFarB : List QueryRow := [(4, ⟨0, 0, 0⟩), (9, ⟨200, 0, 0⟩)]

/-- The reachable grid state produced by one pass over `rowsPair`. -/
def pgPair : PowerGrid :=
  ⟨⟨[⟨0, ⟨0, 0, 0⟩⟩, ⟨1, ⟨5, 0, 0⟩⟩],
    [(0, 1, MAX_TRANSFER_RATE), (1, 0, MAX_TRANSFER_RATE)]⟩,
   [(0, 0), (1, 1)]⟩

/-- A one-entry k-d tree tracking entity 42 at `(3, 4)`. -/
def kdT : EntityKdTree := ⟨[((3, 4), 42)], [(42, (3, 4))]⟩

/-- A one-entry k-d tree tracking entity 7 at `(1, 2)`. -/
def kdDup : EntityKdTree := ⟨[((1, 2), 7)], [(7, (1, 2))]⟩

/-! ## Supporting lemmas -/

/-- The new/updated-entity scan never touches the edge list: it only adds
nodes and records transforms. -/
theorem scanQuery_edges_eq (rows : List QueryRow) :
    ∀ g map updated g' map' updated',
      scanQuery g map updated rows = some (g', map', updated') →
      g'.edges = g.edges := by
  induction rows with
  | nil =>
    intro g map updated g' map' updated' h
    simp only [scanQuery, Option.some.injEq, Prod.mk.injEq] at h
    obtain ⟨h1, -, -⟩ := h
    exact h1 ▸ rfl
  | cons r rest ih =>
    intro g map updated g' map' updated' h
    obtain ⟨e, pos⟩ := r
    simp only [scanQuery] at h
    cases hl : lookupA map e with
    | some i =>
      simp only [hl] at h
      cases hg : g.nodes[i]? with
      | none => simp [hg] at h
      | some m =>
        simp only [hg] at h
        exact ih g map _ g' map' updated' h
    | none =>
      simp only [hl] at h
      have := ih (g.addNode ⟨e, pos⟩) (map ++ [(e, g.nodes.length)]) updated
        g' map' updated' h
      simpa [PGraph.addNode] using this

/-- Writing back updated transforms never touches the edge list. -/
theorem applyTransforms_edges_eq (updated : List (Nat × Vec3)) :
    ∀ g : PGraph, (applyTransforms g updated).edges = g.edges := by
  induction updated with
  | nil => intro g; rfl
  | cons u rest ih =>
    intro g
    simpa [applyTransforms, List.foldl_cons] using
      ih { g with nodes := g.nodes.set u.1 ⟨(g.nodes.getD u.1 default).entity, u.2⟩ }

/-- Folding `add_edge` over a proposal buffer appends exactly that buffer. -/
theorem foldl_addEdge_edges (eta : List (Nat × Nat × ℤ)) :
    ∀ g : PGraph, (eta.foldl PGraph.addEdge g).edges = g.edges ++ eta := by
  induction eta with
  | nil => intro g; simp
  | cons e rest ih =>
    intro g
    rw [List.foldl_cons, ih (g.addEdge e)]
    simp [PGraph.addEdge]

/-- C6 (amended): with no intervening entity removals (every mapped
entity still alive), a maintenance pass never removes an edge — the new
edge list is the old one plus the pass's proposals — but, as the
counterexample shows, a second pass may still add edges, so running the
pass twice need not equal running it once.  (The pass drops its
`edges_to_remove` buffer, so the only edge removals ever performed come
from node removal.) -/
theorem pass_extends_edges (producers receivers : List QueryRow)
    (pg pg' : PowerGrid)
    (halive : ∀ kv ∈ pg.entity_to_node, aliveIn producers receivers kv.1 = true)
    (hpass : update_power_grid producers receivers pg = some pg') :
    ∃ tail, pg'.graph.edges = pg.graph.edges ++ tail := by
  have hfil : pg.entity_to_node.filter
      (fun kv => !aliveIn producers receivers kv.1) = [] := by
    rw [List.filter_eq_nil_iff]
    intro kv hkv
    simp [halive kv hkv]
  simp only [update_power_grid, hfil, List.map_nil, update_nodes_helper,
    List.foldl_nil] at hpass
  cases h1 : scanQuery pg.graph
      (pg.entity_to_node.filter (fun kv => aliveIn producers receivers kv.1))
      [] receivers with
  | none => simp only [h1] at hpass; cases hpass
  | some t1 =>
    obtain ⟨g2, map2, updated2⟩ := t1
    simp only [h1] at hpass
    cases h2 : scanQuery g2 map2 updated2 producers with
    | none => simp only [h2] at hpass; cases hpass
    | some t2 =>
      obtain ⟨g3, map3, updated3⟩ := t2
      simp only [h2] at hpass
      simp only [Option.some.injEq] at hpass
      refine ⟨(collectEdges (applyTransforms g3 updated3)).1, ?_⟩
      rw [← hpass]
      rw [foldl_addEdge_edges _ (applyTransforms g3 updated3),
        applyTransforms_edges_eq updated3 g3,
        scanQuery_edges_eq producers g2 map2 updated2 g3 map3 updated3 h2,
        scanQuery_edges_eq receivers pg.graph _ [] g2 map2 updated2 h1]

/-! ## Claim theorems -/

/-- C1: the claim says every edge left by a maintenance pass has length at
most `MAX_DISTANCE`, the stale-edge phase removing any longer edge of a
moved entity.  The code collects `edges_to_remove` but never applies it:
after entity 1 moves from distance 5 to distance 50, the pass completes
with both stored edges between nodes 0 and 1 still present although their
endpoints are now 50 > `MAX_DISTANCE` apart. -/
theorem stale_edge_survives_pass :
    ((update_power_grid [] rowsPair PowerGrid.empty).bind
        (update_power_grid [] rowsPairMoved)).map
      (fun pg => (pg.graph.edgesBetween 0 1,
        distGt (pg.graph.nodes.getD 0 default).location
          (pg.graph.nodes.getD 1 default).location MAX_DISTANCE))
    = some (2, true) := by decide

/-- C2: the claim says every node has degree at most `MAX_EDGES = 4` once
a maintenance pass completes.  The per-node counter in
`update_edges_helper` only counts the proposals made on behalf of that
node, not edges proposed towards it by other nodes nor edges already in
the graph: one pass over four mutually-in-range entities leaves node 0
with degree 6. -/
theorem degree_cap_violated_after_pass :
    (update_power_grid [] rowsFour PowerGrid.empty).map
      (fun pg => (pg.graph.degree 0, decide (pg.graph.degree 0 ≤ MAX_EDGES)))
    = some (6, false) := by decide

/-- C3: the claim says a candidate neighbor `v` already at degree
`MAX_EDGES` either has its farthest edge evicted (when the newcomer is
strictly closer) or is skipped.  The code has no eviction logic at all:
after one pass node 0 sits at degree exactly `MAX_EDGES` with every
incident edge of squared length at most 2, and when entity 3 appears at
distance 9 (farther than every existing edge) the next pass still
connects it to node 0 — twice — raising node 0 to degree 6 and evicting
nothing. -/
theorem saturated_node_gains_edge_without_eviction :
    ((update_power_grid [] rowsCluster PowerGrid.empty).map
        (fun pg => (pg.graph.degree 0,
          pg.graph.edges.all (fun e =>
            decide (dist2 (pg.graph.nodes.getD e.1 default).location
              (pg.graph.nodes.getD e.2.1 default).location ≤ 2))))
      = some (MAX_EDGES, true))
    ∧ ((update_power_grid [] rowsCluster PowerGrid.empty).bind
          (update_power_grid [] rowsClusterPlus)).map
        (fun pg => (pg.graph.degree 0, pg.graph.edgesBetween 0 3))
      = some (6, 2) := by decide

/-- C4: the claim says the removal phase deletes exactly the despawned
entities' nodes, also when several entities despawn in one pass.
`Graph::remove_node` moves the last node into the removed slot, so the
recorded indices of later removals are stale: despawning both tracked
entities with the map iterated in insertion order removes node 0, swaps
entity 1's node into slot 0, and then finds index 1 vacant — the pass
completes with despawned entity 1 still in the graph. -/
theorem despawned_node_survives_removal_phase :
    ((update_power_grid [] rowsFar PowerGrid.empty).bind
        (update_power_grid [] [])).map
      (fun pg => (pg.graph.nodes.map Member.entity, pg.entity_to_node))
    = some ([1], []) := by decide

/-- C5: the claim says a completed pass leaves no duplicate edge between
any pair, even when both endpoints propose the same edge in one pass.
The duplicate check `edges_to_add.contains((node_one, other, rate))` never
matches the reversed orientation, so a single pass over two in-range
entities stores two parallel edges between nodes 0 and 1. -/
theorem duplicate_parallel_edges_after_pass :
    (update_power_grid [] rowsPair PowerGrid.empty).map
      (fun pg => pg.graph.edgesBetween 0 1) = some 2 := by decide

/-- C6 (counterexample): running the maintenance pass twice over the
unchanged six-entity row is not the same as running it once — the first
pass's per-node proposal cap leaves the in-range pair `{4, 5}`
unconnected, and the second pass adds two more edges (24 become 26). -/
theorem second_pass_changes_graph :
    ((update_power_grid [] rowsSix PowerGrid.empty).map
      (fun pg => pg.graph.edges.length) = some 24)
    ∧ (((update_power_grid [] rowsSix PowerGrid.empty).bind
        (update_power_grid [] rowsSix)).map
      (fun pg => pg.graph.edges.length) = some 26) := by decide

/-- C7: the claim says two runs over the same notifications produce
identical graphs regardless of hash-map iteration order.  `pgFar` is the
reachable state holding two despawning entities; iterating its
`entity_to_node` map in the two possible orders makes the removal phase
delete different node sets (the swap-remove of the first order
invalidates the second recorded index), so the two runs end in different
graphs. -/
theorem graph_depends_on_map_iteration_order :
    update_power_grid [] rowsFar PowerGrid.empty = some pgFar
    ∧ pgFar.graph = pgFarSwapped.graph
    ∧ pgFar.entity_to_node.Perm pgFarSwapped.entity_to_node
    ∧ update_power_grid [] [] pgFar ≠ update_power_grid [] [] pgFarSwapped := by
  refine ⟨by decide, rfl, by decide, by decide⟩

/-- C8 (counterexample): the claim says `radius` returns an entity iff its
Euclidean distance to the query point is at most `r`.  Entity 42 sits at
`(3, 4)`, Euclidean distance exactly 5 from the origin, yet
`radius((0,0), 5)` returns nothing: the backend measures the Manhattan
distance 7. -/
theorem radius_misses_euclidean_boundary_entity :
    euclidWithin (0, 0) (3, 4) 5 = true
    ∧ kdT.radius (0, 0) 5 = [] := by decide

/-- C8 (amended): the k-d tree backend's `radius` returns an entity iff
the Manhattan distance from the query point to one of its stored
positions is at most `r` (boundary inclusive) — the backend substitutes
the Manhattan metric for the documented Euclidean one. -/
theorem radius_mem_iff_manhattan (t : EntityKdTree) (p : KdPoint) (r : ℤ)
    (e : Nat) :
    (∃ d, (d, e) ∈ t.radius p r)
      ↔ ∃ q, (q, e) ∈ t.tree ∧ manhattanDist p q ≤ r := by
  constructor
  · rintro ⟨d, hd⟩
    simp only [EntityKdTree.radius, List.mem_map, List.mem_filter,
      Prod.mk.injEq, decide_eq_true_eq] at hd
    obtain ⟨⟨q, e2⟩, ⟨hmem, hle⟩, -, hsnd⟩ := hd
    subst hsnd
    exact ⟨q, hmem, hle⟩
  · rintro ⟨q, hq, hle⟩
    refine ⟨manhattanDist p q, ?_⟩
    simp only [EntityKdTree.radius, List.mem_map, List.mem_filter,
      decide_eq_true_eq]
    exact ⟨(q, e), ⟨hq, hle⟩, rfl⟩

/-- Witness for the C8 amended theorem at a concrete tree and query. -/
theorem radius_mem_iff_manhattan_witness :
    (∃ d, (d, 42) ∈ kdT.radius (0, 0) 7)
      ↔ ∃ q, (q, 42) ∈ kdT.tree ∧ manhattanDist (0, 0) q ≤ 7 :=
  radius_mem_iff_manhattan kdT (0, 0) 7 42

/-- C9 (counterexample): the claim says a duplicate insert fails with an
`AlreadyTracked` condition signalled to the caller.  The insert system
has no failure channel: feeding it an already-tracked entity produces
exactly the same result as feeding it nothing — a silent skip — whereas
the spec-modelled façade insert reports `AlreadyTracked`. -/
theorem duplicate_insert_silently_ignored :
    kd_insert kdDup [(7, (9, 9))] = kd_insert kdDup []
    ∧ insert_spec kdDup 7 (9, 9)
        = Except.error IndexError.AlreadyTracked := by decide

/-- C9 (amended): inserting an already-tracked entity is silently
skipped — the index state (tree and last-location map) is unchanged and
no failure is signalled. -/
theorem insert_already_tracked_unchanged (s : EntityKdTree) (e : Nat)
    (pos : KdPoint)
    (h : (lookupA s.entity_to_last_loc e).isSome = true) :
    kd_insert_step s e pos = s := by
  have hfalse : (lookupA s.entity_to_last_loc e).isNone = false := by
    cases hl : lookupA s.entity_to_last_loc e with
    | none => rw [hl] at h; simp at h
    | some v => simp
  simp [kd_insert_step, hfalse]

/-- Witness for the C9 amended theorem at a concrete tracked entity. -/
theorem insert_already_tracked_unchanged_witness :
    kd_insert_step kdDup 7 (9, 9) = kdDup :=
  insert_already_tracked_unchanged kdDup 7 (9, 9) (by decide)

/-- C10: the claim says a completed pass keeps `entity_to_node` and the
graph consistent, every node being referenced by exactly one map entry.
Despawning both tracked entities with the map iterated in insertion order
leaves entity 9's node in the graph while the map is empty, so the pass
completes with a node referenced by no map entry. -/
theorem map_node_bijection_broken :
    ((update_power_grid [] rowsFarB PowerGrid.empty).bind
        (update_power_grid [] [])).map
      (fun pg => (pg.graph.nodes.map Member.entity, pg.entity_to_node,
        lookupA pg.entity_to_node 9))
    = some ([9], [], none) := by decide

/-- Witness for the C6 amended theorem: a pass over the unchanged
two-entity world extends (here: exactly preserves) the edge list of the
reachable state `pgPair`. -/
theorem pass_extends_edges_witness :
    ∃ tail, pgPair.graph.edges = pgPair.graph.edges ++ tail :=
  pass_extends_edges [] rowsPair pgPair pgPair (by decide) (by decide)

end DE
